import Mathlib

/-!
Verification development for the MA-CP-Protocol scheduler
(`src/macp/scheduler.py`).

The Python source is shallowly embedded: Python `float` arithmetic on the
consensus scores is modelled with `ℚ` (all the constants and operations used
by the source — division by 100, `max`/`min` clamping — are exact in `ℚ`),
JSON values are modelled by the inductive `JValue` and `json.loads` by a
fuel-based recursive-descent decoder, and the fallible external model
providers are modelled as oracle inputs.  A result of `none` from a function
returning `Option _` models an exception that the corresponding Python code
does not catch (the `except` clauses of the source list their exception
classes explicitly, and the embedding follows them).

String handling notes, applying to all definitions below:
* Python `str.lower()` is modelled with `Char.toLower`; the two agree on
  ASCII, and both leave CJK characters unchanged (every string constant of
  the source is either ASCII or CJK).
* Python's `\w` and `\d` regex classes are modelled by ASCII
  alphanumerics/underscore and ASCII digits; every input appearing in a
  theorem below stays inside that fragment.
-/

namespace Macp

/-- Word characters of the regex `\w` (ASCII fragment). -/
def isWordChar (c : Char) : Bool :=
  c.isAlphanum || c = '_'

/-- `pat.isPrefixOf s` on character lists, written out so that it is
a plain computable `Bool`. -/
def listIsPrefix : List Char → List Char → Bool
  | [], _ => true
  | _ :: _, [] => false
  | p :: ps, c :: cs => p = c && listIsPrefix ps cs

/-- Python's substring containment test `pat in s` on character lists. -/
def listContainsSub (pat : List Char) : List Char → Bool
  | [] => pat.isEmpty
  | c :: cs => listIsPrefix pat (c :: cs) || listContainsSub pat cs

/-- Python's `pat in s` for strings. -/
def strContains (s pat : String) : Bool :=
  listContainsSub pat.data s.data

/-- Lowercasing, modelling Python's `str.lower()`. -/
def pyLower (s : String) : String :=
  ⟨s.data.map Char.toLower⟩

/-- Maximal runs of word characters, accumulator form.
`acc` holds the (reversed) run currently being read. -/
def splitRunsAux (acc : List Char) : List Char → List (List Char)
  | [] => if acc.isEmpty then [] else [acc.reverse]
  | c :: cs =>
    if isWordChar c then splitRunsAux (c :: acc) cs
    else if acc.isEmpty then splitRunsAux [] cs
    else acc.reverse :: splitRunsAux [] cs

/-- The maximal word-character runs of a character list; together with the
length filter below this models `re.findall(r'\b\w{3,}\b', text)`. -/
def splitRuns (cs : List Char) : List (List Char) :=
  splitRunsAux [] cs

/-- The set of keywords of a text: lowercase, maximal word runs of length
at least 3, as a finite set (Python builds a `set`). -/
def wordSet (text : String) : Finset (List Char) :=
  ((splitRuns (pyLower text).data).filter (fun w => 3 ≤ w.length)).toFinset

/-- Numeric value of a digit run. -/
def digitsVal (ds : List Char) : Nat :=
  ds.foldl (fun a c => a * 10 + (c.toNat - 48)) 0

/-- Value of the regex group `\d+(?:\.\d+)?` given integer and fractional
digit runs. -/
def decimalVal (intPart fracPart : List Char) : ℚ :=
  (digitsVal intPart : ℚ) + (digitsVal fracPart : ℚ) / (10 ^ fracPart.length : ℚ)

/-- Try to match the regex `(\d+(?:\.\d+)?)%` at the head of `cs`,
returning the numeric value of the group.  Greedy digit runs never need
backtracking here: a shorter digit prefix is followed by another digit,
which matches neither `.` nor `%`. -/
def matchPercentAt (cs : List Char) : Option ℚ :=
  let ds := cs.takeWhile Char.isDigit
  if ds.isEmpty then none
  else
    match cs.drop ds.length with
    | '.' :: r2 =>
      let fs := r2.takeWhile Char.isDigit
      if fs.isEmpty then none
      else
        match r2.drop fs.length with
        | '%' :: _ => some (decimalVal ds fs)
        | _ => none
    | '%' :: _ => some (digitsVal ds)
    | _ => none

/-- Leftmost match of `re.search(r'(\d+(?:\.\d+)?)%', text)`:
scan every start position left to right. -/
def percentSearchAux : List Char → Option ℚ
  | [] => none
  | c :: cs =>
    match matchPercentAt (c :: cs) with
    | some q => some q
    | none => percentSearchAux cs

/-- `re.search(r'(\d+(?:\.\d+)?)%', text)` returning the group value. -/
def percentSearch (text : String) : Option ℚ :=
  percentSearchAux text.data

/-! ### JSON

A model of the Python values `json.loads` can produce, and of the decoder
itself (numbers as `ℚ`; Python distinguishes `int` from `float`, but every
consumer in the source treats them alike). -/

/-- JSON values as decoded by `json.loads`. -/
inductive JValue where
  | null : JValue
  | bool (b : Bool) : JValue
  | num (q : ℚ) : JValue
  | str (s : String) : JValue
  | arr (elems : List JValue) : JValue
  | obj (fields : List (String × JValue)) : JValue

/-- A decoded JSON object, i.e. the Python `dict` (key order preserved,
later duplicates win on lookup, as in CPython). -/
abbrev JObj := List (String × JValue)

/-- JSON whitespace. -/
def isJsonWs (c : Char) : Bool :=
  c = ' ' || c = '\t' || c = '\n' || c = '\r'

/-- Drop leading JSON whitespace. -/
def skipWs : List Char → List Char
  | [] => []
  | c :: cs => if isJsonWs c then skipWs cs else c :: cs

/-- Hex digit value. -/
def hexVal (c : Char) : Option Nat :=
  if c.isDigit then some (c.toNat - 48)
  else if 'a' ≤ c ∧ c ≤ 'f' then some (c.toNat - 87)
  else if 'A' ≤ c ∧ c ≤ 'F' then some (c.toNat - 70)
  else none

/-- Body of a JSON string literal, after the opening quote; `acc` is the
reversed content so far.  `\uXXXX` escapes are decoded as single code
points (surrogate pairs, which no input below contains, are not joined). -/
def parseStrBody (acc : List Char) : List Char → Option (String × List Char)
  | [] => none
  | '"' :: r => some (⟨acc.reverse⟩, r)
  | '\\' :: 'u' :: a :: b :: c :: d :: r =>
    match hexVal a, hexVal b, hexVal c, hexVal d with
    | some va, some vb, some vc, some vd =>
      parseStrBody (Char.ofNat (((va * 16 + vb) * 16 + vc) * 16 + vd) :: acc) r
    | _, _, _, _ => none
  | '\\' :: e :: r =>
    if e = '"' then parseStrBody ('"' :: acc) r
    else if e = '\\' then parseStrBody ('\\' :: acc) r
    else if e = '/' then parseStrBody ('/' :: acc) r
    else if e = 'b' then parseStrBody ('\x08' :: acc) r
    else if e = 'f' then parseStrBody ('\x0c' :: acc) r
    else if e = 'n' then parseStrBody ('\n' :: acc) r
    else if e = 'r' then parseStrBody ('\r' :: acc) r
    else if e = 't' then parseStrBody ('\t' :: acc) r
    else none
  | c :: r => parseStrBody (c :: acc) r

/-- JSON number grammar: `-? (0 | [1-9][0-9]*) (\.[0-9]+)? ([eE][-+]?[0-9]+)?`. -/
def parseNumber (cs : List Char) : Option (ℚ × List Char) :=
  let (neg, cs₁) :=
    match cs with
    | '-' :: r => (true, r)
    | _ => (false, cs)
  let ds := cs₁.takeWhile Char.isDigit
  if ds.isEmpty then none
  else if 1 < ds.length ∧ ds.head? = some '0' then none
  else
    let cs₂ := cs₁.drop ds.length
    let (fracQ, cs₃) :=
      match cs₂ with
      | '.' :: r =>
        let fs := r.takeWhile Char.isDigit
        if fs.isEmpty then (none, cs₂)
        else (some ((digitsVal fs : ℚ) / (10 ^ fs.length : ℚ)), r.drop fs.length)
      | _ => (none, cs₂)
    match fracQ, cs₂ with
    | none, '.' :: _ => none
    | _, _ =>
      let mantissa : ℚ := (digitsVal ds : ℚ) + (fracQ.getD 0)
      let expRes : Option (Option Int × List Char) :=
        match cs₃ with
        | 'e' :: r | 'E' :: r =>
          let (eneg, r₁) :=
            match r with
            | '-' :: r₂ => (true, r₂)
            | '+' :: r₂ => (false, r₂)
            | _ => (false, r)
          let es := r₁.takeWhile Char.isDigit
          if es.isEmpty then none
          else some (some (if eneg then -(digitsVal es : Int) else (digitsVal es : Int)),
                     r₁.drop es.length)
        | _ => some (none, cs₃)
      match expRes with
      | none => none
      | some (e, rest) =>
        let value := mantissa * (10 : ℚ) ^ (e.getD 0)
        some (if neg then -value else value, rest)

mutual

/-- One JSON value, fuel-indexed (fuel bounds the recursion depth). -/
def parseValue : Nat → List Char → Option (JValue × List Char)
  | 0, _ => none
  | fuel + 1, cs₀ =>
    match skipWs cs₀ with
    | [] => none
    | '"' :: r => (parseStrBody [] r).map (fun p => (.str p.1, p.2))
    | '\x7b' :: r => parseObjFields fuel r [] true
    | '[' :: r => parseArrElems fuel r [] true
    | 't' :: 'r' :: 'u' :: 'e' :: r => some (.bool true, r)
    | 'f' :: 'a' :: 'l' :: 's' :: 'e' :: r => some (.bool false, r)
    | 'n' :: 'u' :: 'l' :: 'l' :: r => some (.null, r)
    | cs => (parseNumber cs).map (fun p => (.num p.1, p.2))

/-- Members of an object after its `\x7b`; `first` tells whether a `,`
separator is still forbidden. -/
def parseObjFields : Nat → List Char → JObj → Bool → Option (JValue × List Char)
  | 0, _, _, _ => none
  | fuel + 1, cs, acc, first =>
    match skipWs cs with
    | '\x7d' :: r => if first || !acc.isEmpty then some (.obj acc.reverse, r) else none
    | cs₁ =>
      let afterSep : Option (List Char) :=
        if first then some cs₁
        else
          match cs₁ with
          | ',' :: r => some (skipWs r)
          | _ => none
      match afterSep with
      | none => none
      | some cs₂ =>
        match cs₂ with
        | '"' :: r =>
          match parseStrBody [] r with
          | none => none
          | some (key, r₁) =>
            match skipWs r₁ with
            | ':' :: r₂ =>
              match parseValue fuel r₂ with
              | none => none
              | some (v, r₃) => parseObjFields fuel r₃ ((key, v) :: acc) false
            | _ => none
        | _ => none

/-- Elements of an array after its `[`. -/
def parseArrElems : Nat → List Char → List JValue → Bool → Option (JValue × List Char)
  | 0, _, _, _ => none
  | fuel + 1, cs, acc, first =>
    match skipWs cs with
    | ']' :: r => if first || !acc.isEmpty then some (.arr acc.reverse, r) else none
    | cs₁ =>
      let afterSep : Option (List Char) :=
        if first then some cs₁
        else
          match cs₁ with
          | ',' :: r => some r
          | _ => none
      match afterSep with
      | none => none
      | some cs₂ =>
        match parseValue fuel cs₂ with
        | none => none
        | some (v, r₁) => parseArrElems fuel r₁ (v :: acc) false

end

/-- `json.loads`, succeeding only when the whole string is one JSON value
(trailing whitespace allowed). -/
def json_loads (s : String) : Option JValue :=
  match parseValue (s.length + 8) s.data with
  | some (v, rest) => if (skipWs rest).isEmpty then some v else none
  | none => none

/-- `d.get(key)` on a decoded object: the binding of the last duplicate of
`key` wins, as in a Python `dict` built by the decoder. -/
def jGet (fields : JObj) (key : String) : Option JValue :=
  ((fields.filter (fun p => p.1 = key)).getLast?).map (fun p => p.2)

/-- `d.get(key, default)`. -/
def jGetD (fields : JObj) (key : String) (dflt : JValue) : JValue :=
  (jGet fields key).getD dflt

/-- `d.get(key, default)` where the caller uses the result as a string.
When the stored value is not a string Python would hand the raw value
through unchanged; no theorem below depends on the rationale produced from
a non-string field, and the default is returned in that corner. -/
def jGetStrD (fields : JObj) (key : String) (dflt : String) : String :=
  match jGet fields key with
  | some (.str s) => s
  | _ => dflt

/-- `max(0, min(100, v))` under Python semantics: numbers clamp, `bool`
is its numeric value (`True == 1`), and any other operand raises
`TypeError` (modelled as `none`). -/
def pyClampPct (v : JValue) : Option ℚ :=
  match v with
  | .num q => some (max 0 (min 100 q))
  | .bool b => some (if b then 1 else 0)
  | _ => none

/-- Result of Python's `float(v)`. -/
inductive PyFloatRes where
  | ok (q : ℚ)
  | valError
  | typeError

/-- `float(s)` for a string: optional surrounding whitespace, optional
sign, then `digits [. digits] [exponent]`, `. digits [exponent]`;
(`inf`/`nan` spellings and digit underscores, which no input below uses,
are mapped to `ValueError`). -/
def pyFloatOfStr (s : String) : Option ℚ :=
  let cs := (skipWs s.data.reverse).reverse
  let cs := skipWs cs
  let (neg, cs₁) :=
    match cs with
    | '-' :: r => (true, r)
    | '+' :: r => (false, r)
    | _ => (false, cs)
  let ds := cs₁.takeWhile Char.isDigit
  let cs₂ := cs₁.drop ds.length
  let (fracQ, cs₃) :=
    match cs₂ with
    | '.' :: r =>
      let fs := r.takeWhile Char.isDigit
      (some ((digitsVal fs : ℚ) / (10 ^ fs.length : ℚ)), r.drop fs.length)
    | _ => (none, cs₂)
  let hasFracDigits : Bool :=
    match cs₂ with
    | '.' :: r => !(r.takeWhile Char.isDigit).isEmpty
    | _ => false
  if ds.isEmpty && !hasFracDigits then none
  else
    let mantissa : ℚ := (digitsVal ds : ℚ) + (fracQ.getD 0)
    let expRes : Option (Option Int × List Char) :=
      match cs₃ with
      | 'e' :: r | 'E' :: r =>
        let (eneg, r₁) :=
          match r with
          | '-' :: r₂ => (true, r₂)
          | '+' :: r₂ => (false, r₂)
          | _ => (false, r)
        let es := r₁.takeWhile Char.isDigit
        if es.isEmpty then none
        else some (some (if eneg then -(digitsVal es : Int) else (digitsVal es : Int)),
                   r₁.drop es.length)
      | _ => some (none, cs₃)
    match expRes with
    | none => none
    | some (e, rest) =>
      if rest.isEmpty then some ((if neg then -mantissa else mantissa) * (10 : ℚ) ^ (e.getD 0))
      else none

/-- Python's `float(v)` on a decoded JSON value: numbers and bools convert,
numeric strings convert, other strings raise `ValueError`, and `None`,
lists and dicts raise `TypeError`. -/
def pyFloat (v : JValue) : PyFloatRes :=
  match v with
  | .num q => .ok q
  | .bool b => .ok (if b then 1 else 0)
  | .str s =>
    match pyFloatOfStr s with
    | some q => .ok q
    | none => .valError
  | _ => .typeError

/-! ### ConsensusDetector

Embedding of the static methods of `ConsensusDetector`
(`scheduler.py:695-1086`).  A triple result `(score, rationale, data)`
models the Python return tuple; `none` models an exception that escapes
the function (its `except` clauses do not list `TypeError`). -/

/-- Index of the first `c` in `cs` (`str.find`), if any. -/
def findIdxOfChar (c : Char) (cs : List Char) : Option Nat :=
  cs.findIdx? (· = c)

/-- Index of the last `c` in `cs` (`str.rfind`), if any. -/
def rfindIdxOfChar (c : Char) (cs : List Char) : Option Nat :=
  (cs.reverse.findIdx? (· = c)).map (fun i => cs.length - 1 - i)

/-- The substring `text[json_start:json_end]` from the first `\x7b` to the
last `\x7d` inclusive, when `json_start != -1 and json_end > json_start`
(`scheduler.py:854-858`). -/
def braceSlice (text : String) : Option String :=
  match findIdxOfChar '\x7b' text.data, rfindIdxOfChar '\x7d' text.data with
  | some jstart, some jlast =>
    if jstart < jlast + 1 then some ⟨(text.data.drop jstart).take (jlast + 1 - jstart)⟩
    else none
  | _, _ => none

/-- One debate-history entry, the dict
`{"round": .., "speaker": .., "content": .., "type": ..}` built by
`_debate_ask` (`scheduler.py:2941-2944`). -/
structure DebateEntry where
  round : Nat
  speaker : String
  content : String
  type : String
deriving DecidableEq

/-- `ConsensusDetector.calculate_consensus` (`scheduler.py:719-753`):
keyword-overlap score of two texts. -/
def calculate_consensus (text1 text2 : String) : ℚ :=
  if text1 = "" ∨ text2 = "" then 0
  else
    let words1 := wordSet text1
    let words2 := wordSet text2
    if words1 = ∅ ∨ words2 = ∅ then 0
    else
      let common_words := words1 ∩ words2
      let total_words := (words1 ∪ words2).card
      if 0 < total_words then (common_words.card : ℚ) / (total_words : ℚ) else 0

/-- `ConsensusDetector._extract_consensus_from_text`
(`scheduler.py:1061-1086`): qualitative phrases in priority order, then an
(unclamped) percentage, then the 0.5 default.  The phrase tests run on the
original text; the lowercased copy the source computes is unused there. -/
def extract_consensus_from_text (text : String) : ℚ × String × JObj :=
  if strContains text "高度共识" ∨ strContains text "高度一致" ∨ strContains text "完全同意" then
    (9/10, text, [])
  else if strContains text "基本共识" ∨ strContains text "基本一致" ∨ strContains text "大体同意" then
    (3/4, text, [])
  else if strContains text "部分共识" ∨ strContains text "部分一致" ∨ strContains text "部分同意" then
    (3/5, text, [])
  else if strContains text "分歧较大" ∨ strContains text "存在分歧" ∨ strContains text "不同意" then
    (3/10, text, [])
  else if strContains text "完全分歧" ∨ strContains text "完全不同" then
    (1/10, text, [])
  else
    match percentSearch text with
    | some percentage => (percentage / 100, text, [])
    | none => (1/2, text, [])

/-- `ConsensusDetector._parse_consensus_analysis` (`scheduler.py:849-881`).
`none` models the uncaught `TypeError` raised by
`max(0, min(100, consensus_percentage))` when the decoded percentage is
neither a number nor a bool (the `except` clause catches only
`json.JSONDecodeError`, `ValueError` and `KeyError`), and the unreachable
`AttributeError` from `.get` on a non-dict. -/
def parse_consensus_analysis (text : String) : Option (ℚ × String × JObj) :=
  match braceSlice text with
  | some json_str =>
    match json_loads json_str with
    | some (.obj analysis_data) =>
      let consensus_percentage := jGetD analysis_data "consensus_percentage" (.num 0)
      let analysis_summary := jGetStrD analysis_data "analysis_summary" "分析完成"
      match pyClampPct consensus_percentage with
      | some clamped => some (clamped / 100, analysis_summary, analysis_data)
      | none => none
    | some _ => none
    | none => some (extract_consensus_from_text text)
  | none =>
    match percentSearch text with
    | some percentage =>
      some ((max 0 (min 100 percentage)) / 100, text, [])
    | none => some (1/2, text, [])

/-- The agreement keywords of `_fallback_consensus_analysis`
(`scheduler.py:1025`). -/
def consensus_words : List String :=
  ["同意", "认可", "没错", "确实", "有道理", "理解", "相同", "一致", "认同"]

/-- The disagreement keywords of `_fallback_consensus_analysis`
(`scheduler.py:1027`); the source lists `但是` twice, so its presence is
counted twice. -/
def disagreement_words : List String :=
  ["但是", "然而", "不同", "反对", "不认同", "分歧", "争议", "但是", "可是"]

/-- The concatenation `content + " "` over the history
(`scheduler.py:1017-1020`), lowercased. -/
def allContentLower (debate_history : List DebateEntry) : String :=
  pyLower (debate_history.foldl (fun acc e => acc ++ e.content ++ " ") "")

/-- `sum(1 for word in ws if word in content)`: hits counted with the
multiplicity of the word list. -/
def keywordHits (ws : List String) (content : String) : Nat :=
  (ws.filter (fun w => strContains content w)).length

/-- `ConsensusDetector._fallback_consensus_analysis`
(`scheduler.py:1001-1059`).  `role1`, `role2` and `question` are read but
unused by the source, so the embedding omits them; the source's own
`except` arm (line 1057) is unreachable here since the body is total. -/
def fallback_consensus_analysis (debate_history : List DebateEntry) : ℚ × String × JObj :=
  let all_content_lower := allContentLower debate_history
  let consensus_count := keywordHits consensus_words all_content_lower
  let disagreement_count := keywordHits disagreement_words all_content_lower
  let total_signals := consensus_count + disagreement_count
  let consensus_score : ℚ :=
    if total_signals = 0 then 1/2
    else max (1/5) (min (4/5) ((consensus_count : ℚ) / (total_signals : ℚ)))
  let analysis :=
    if 3/5 < consensus_score then
      "双方观点基本一致，共识度较高。检测到" ++ toString consensus_count ++ "个共识信号。"
    else if 2/5 < consensus_score then
      "双方观点存在一定分歧，也有一些共识。共识信号:" ++ toString consensus_count ++
        ",分歧信号:" ++ toString disagreement_count ++ "。"
    else
      "双方观点分歧较大。检测到" ++ toString disagreement_count ++ "个分歧信号。"
  let data : JObj :=
    [("key_agreements", .arr (if 0 < consensus_count then [.str "双方都重视各自领域的重要性"] else [])),
     ("key_disagreements", .arr (if 0 < disagreement_count then [.str "在优先级排序上存在分歧"] else [])),
     ("recommendation", .str "建议双方深入讨论具体案例"),
     ("method", .str "fallback_keyword_analysis")]
  (consensus_score, analysis, data)

/-- Whether `s.strip()` is empty (falsy). -/
def stripIsEmpty (s : String) : Bool :=
  (skipWs s.data).isEmpty

/-- Outcome of one coordinator-provider invocation, as seen by the caller:
the returned response dict (`success` flag plus the `response` text,
defaulted to `""` by `.get`), or an exception of one of the classes the
outer `try` of the consensus functions catches (`AICouncilException`,
`requests` errors, `json.JSONDecodeError`, `ValueError`). -/
inductive CoordOutcome where
  | reply (success : Bool) (text : String)
  | raised (msg : String)

/-- The `except` handler of `calculate_ai_consensus`'s inner `try`
(`scheduler.py:981-992`), reached on `JSONDecodeError` / `ValueError` /
`KeyError`. -/
def aiConsensusExceptHandler (result_text : String) (debate_history : List DebateEntry) :
    ℚ × String × JObj :=
  if result_text = "" || stripIsEmpty result_text then
    fallback_consensus_analysis debate_history
  else
    extract_consensus_from_text result_text

/-- `ConsensusDetector.calculate_ai_consensus` (`scheduler.py:883-999`).
`none` models the uncaught `TypeError` of `float(consensus_percentage)`
on a JSON `null`/array/object (neither `except` clause lists `TypeError`),
and the unreachable `AttributeError` on a non-dict decode. -/
def calculate_ai_consensus (outcome : CoordOutcome) (debate_history : List DebateEntry) :
    Option (ℚ × String × JObj) :=
  match outcome with
  | .raised msg => some (0, "检测出错: " ++ msg, [])
  | .reply success result_text =>
    if !success then some (0, "分析失败", [])
    else if result_text = "" then some (fallback_consensus_analysis debate_history)
    else
      match braceSlice result_text with
      | some json_str =>
        match json_loads json_str with
        | some (.obj analysis_data) =>
          let consensus_percentage := jGetD analysis_data "consensus_percentage" (.num 50)
          let analysis := jGetStrD analysis_data "analysis" "AI分析完成"
          let data : JObj :=
            [("key_agreements", jGetD analysis_data "key_agreements" (.arr [])),
             ("key_disagreements", jGetD analysis_data "key_disagreements" (.arr [])),
             ("recommendation", jGetD analysis_data "recommendation" (.str ""))]
          match pyFloat consensus_percentage with
          | .ok q => some (q / 100, analysis, data)
          | .valError => some (aiConsensusExceptHandler result_text debate_history)
          | .typeError => none
        | some _ => none
        | none => some (aiConsensusExceptHandler result_text debate_history)
      | none =>
        match percentSearch result_text with
        | some percentage => some (percentage / 100, result_text, [])
        | none => some (1/2, result_text, [])

/-- `ConsensusDetector.analyze_debate_consensus` (`scheduler.py:755-847`).
On provider failure the traditional keyword overlap of the last two
history contents is used; `none` models the `TypeError` escaping
`_parse_consensus_analysis` (the outer `except` does not list it). -/
def analyze_debate_consensus (outcome : CoordOutcome) (debate_history : List DebateEntry) :
    Option (ℚ × String × JObj) :=
  match outcome with
  | .raised msg => some (0, "检测出错: " ++ msg, [])
  | .reply success result_text =>
    if success then parse_consensus_analysis result_text
    else
      let c1 := match debate_history.getLast? with
                | some e => e.content
                | none => ""
      let c2 := match debate_history.dropLast.getLast? with
                | some e => e.content
                | none => ""
      some (calculate_consensus c1 c2, "AI分析失败，使用传统方法", [])

/-! ### Question classification (`scheduler.py:1778-1901`) -/

/-- `FACTUAL_KEYWORDS` (`scheduler.py:1778-1793`). -/
def FACTUAL_KEYWORDS : List String :=
  ["是什么", "有没有", "有多少", "多大", "多长", "多重", "多远",
   "几个", "几种", "什么时候", "什么地方", "谁发明", "谁发现",
   "是真的吗", "正确吗", "对不对", "存在吗", "能不能",
   "动物", "植物", "生物", "细胞", "器官", "身体", "羽毛", "翅膀", "爪子", "毛发",
   "哺乳动物", "鸟类", "鱼类", "昆虫", "爬行动物",
   "物理", "化学", "生物学", "数学", "地理", "天文", "医学",
   "科学", "实验", "公式", "定理", "定律", "原理",
   "历史", "朝代", "年代", "事件", "人物", "国家", "城市", "首都",
   "颜色", "形状", "大小", "重量", "温度", "速度", "距离"]

/-- `PHILOSOPHICAL_KEYWORDS` (`scheduler.py:1796-1807`). -/
def PHILOSOPHICAL_KEYWORDS : List String :=
  ["人生", "意义", "目的", "本质", "存在", "自由意志", "命运",
   "善恶", "对错", "价值", "美", "真理", "幸福", "爱",
   "应该", "是否应该", "值得", "更好", "最好", "如何看待",
   "怎么看", "你认为", "你觉得", "看法", "观点", "立场",
   "如果", "假如", "假设", "可能", "或许", "也许",
   "支持", "反对", "利弊", "优缺点", "好坏", "争议"]

/-- Result of `analyze_question_type`. -/
structure QuestionAnalysis where
  qtype : String
  accuracy_required : Bool
  confidence : ℚ
  detected_factual_keywords : List String
  detected_philosophical_keywords : List String
deriving DecidableEq

/-- `analyze_question_type` (`scheduler.py:1809-1851`): case-insensitive
substring hits of the two keyword lists, then the `f > 2p` / `p > 2f` /
mixed decision. -/
def analyze_question_type (question : String) : QuestionAnalysis :=
  let question_lower := pyLower question
  let factual_hits := FACTUAL_KEYWORDS.filter (fun kw => strContains question_lower kw)
  let philosophical_hits := PHILOSOPHICAL_KEYWORDS.filter (fun kw => strContains question_lower kw)
  let factual_score := factual_hits.length
  let philosophical_score := philosophical_hits.length
  if philosophical_score * 2 < factual_score then
    ⟨"factual", true, min 1 ((factual_score : ℚ) / 3), factual_hits, philosophical_hits⟩
  else if factual_score * 2 < philosophical_score then
    ⟨"philosophical", false, min 1 ((philosophical_score : ℚ) / 3), factual_hits, philosophical_hits⟩
  else
    ⟨"mixed", philosophical_score ≤ factual_score, 1/2, factual_hits, philosophical_hits⟩

/-- `ANTI_HALLUCINATION_PROMPT_ZH` (`scheduler.py:1854-1861`). -/
def ANTI_HALLUCINATION_PROMPT_ZH : String :=
  "\n【重要：防止幻觉指令】\n1. 如果问题本身包含错误的假设或事实错误，你必须首先指出并纠正这个错误，而不是顺着错误继续回答。\n2. 例如：如果用户问\"猫的羽毛是什么颜色\"，你必须指出\"猫没有羽毛，猫有的是毛发\"，然后再讨论相关话题。\n3. 对于事实性问题，如果你不确定答案，请明确说\"我不确定\"或\"我需要查证\"，而不是编造答案。\n4. 保持逻辑严谨，不要为了辩论而忽视基本事实。\n5. 事实优先于立场：即使你的角色需要辩护某个观点，也不能歪曲基本事实。\n"

/-- `ANTI_HALLUCINATION_PROMPT_EN` (`scheduler.py:1864-1871`). -/
def ANTI_HALLUCINATION_PROMPT_EN : String :=
  "\n【IMPORTANT: Anti-Hallucination Instructions】\n1. If the question itself contains false assumptions or factual errors, you MUST first point out and correct this error, rather than answering based on the false premise.\n2. Example: If user asks \"What color is a cat\x27s feathers?\", you MUST point out \"Cats don\x27t have feathers, cats have fur\", then discuss the relevant topic.\n3. For factual questions, if you\x27re unsure about the answer, clearly state \"I\x27m not sure\" or \"I need to verify\", rather than making up an answer.\n4. Maintain logical rigor, don\x27t ignore basic facts for the sake of debate.\n5. Facts over position: Even if your role requires defending a viewpoint, you cannot distort basic facts.\n"

/-- `PHILOSOPHICAL_PROMPT_ZH` (`scheduler.py:1874-1881`). -/
def PHILOSOPHICAL_PROMPT_ZH : String :=
  "\n【讨论模式：开放思辨】\n这是一个开放性的哲学/思辨问题，没有绝对的对错答案。\n1. 你可以自由表达你的观点和论证。\n2. 重点在于论证的逻辑性和深度，而非寻找\"正确答案\"。\n3. 但仍需保持基本的逻辑自洽，不要自相矛盾。\n4. 尊重不同观点，用理性论证而非情绪化表达。\n"

/-- `PHILOSOPHICAL_PROMPT_EN` (`scheduler.py:1884-1891`). -/
def PHILOSOPHICAL_PROMPT_EN : String :=
  "\n【Discussion Mode: Open Speculation】\nThis is an open philosophical/speculative question with no absolute right or wrong answer.\n1. You can freely express your viewpoints and arguments.\n2. Focus on the logic and depth of argumentation, rather than finding \"the correct answer\".\n3. But still maintain basic logical consistency, don\x27t contradict yourself.\n4. Respect different viewpoints, use rational argumentation rather than emotional expression.\n"

/-- The interface language `CURRENT_LANGUAGE`, a two-valued global. -/
inductive Lang where
  | zh
  | en
deriving DecidableEq

/-- The instruction block selected in `_debate_ask`
(`scheduler.py:2832-2836`). -/
def modeInstruction (lang : Lang) (accuracy_required : Bool) : String :=
  match lang with
  | .en => if accuracy_required then ANTI_HALLUCINATION_PROMPT_EN else PHILOSOPHICAL_PROMPT_EN
  | .zh => if accuracy_required then ANTI_HALLUCINATION_PROMPT_ZH else PHILOSOPHICAL_PROMPT_ZH

/-- The first side's round-1 opening prompt of `_debate_ask`
(`scheduler.py:2840-2875`), as the f-string concatenation. -/
def openingPrompt1 (lang : Lang) (role_prompt1 question role1 role2 : String)
    (accuracy_required : Bool) : String :=
  match lang with
  | .en =>
    role_prompt1 ++ "\n" ++ "\n**IMPORTANT: You MUST respond entirely in English.**\n" ++ "\n" ++
      modeInstruction lang accuracy_required ++
      "\n\n【Debate Topic】: " ++ question ++
      "\n\n【Your Position】: " ++ role1 ++ " (Pro side)\n【Opponent Role】: " ++ role2 ++
      " (Con side)\n\nPlease clearly and concisely present your core arguments (highlight 3-5 key points):\n"
  | .zh =>
    role_prompt1 ++ "\n" ++ modeInstruction lang accuracy_required ++
      "\n\n【辩论主题】: " ++ question ++
      "\n\n【你的立场】: " ++ role1 ++ "（正方）\n【对手角色】: " ++ role2 ++
      "（反方）\n\n请简洁有力地阐述你的核心观点（重点突出3-5个关键论点）：\n"

/-- The second side's round-1 opening prompt of `_debate_ask`
(`scheduler.py:2854-2886`). -/
def openingPrompt2 (lang : Lang) (role_prompt2 question role1 role2 : String)
    (accuracy_required : Bool) : String :=
  match lang with
  | .en =>
    role_prompt2 ++ "\n" ++ "\n**IMPORTANT: You MUST respond entirely in English.**\n" ++ "\n" ++
      modeInstruction lang accuracy_required ++
      "\n\n【Debate Topic】: " ++ question ++
      "\n\n【Your Position】: " ++ role2 ++ " (Con side)\n【Opponent Role】: " ++ role1 ++
      " (Pro side)\n\nPlease clearly and concisely present your core arguments (highlight 3-5 key points):\n"
  | .zh =>
    role_prompt2 ++ "\n" ++ modeInstruction lang accuracy_required ++
      "\n\n【辩论主题】: " ++ question ++
      "\n\n【你的立场】: " ++ role2 ++ "（反方）\n【对手角色】: " ++ role1 ++
      "（正方）\n\n请简洁有力地阐述你的核心观点（重点突出3-5个关键论点）：\n"

/-- `pat` occurs verbatim inside `s`. -/
def ContainsBlock (pat s : String) : Prop :=
  ∃ l r : String, s = l ++ pat ++ r

/-! ### The debate state machine (`AICouncilScheduler._debate_ask`,
`scheduler.py:2770-3172`)

The provider calls are external collaborators and enter the model as
oracles: the two opening results, the per-round rebuttal results, and the
per-round coordinator outcome (the consensus check issues at most one
coordinator call per round).  Streaming and display calls have no effect
on the returned transcript and are omitted. -/

/-- A provider response dict as used by `_debate_ask`: its truthy
`success` flag and its `response` text (`.get("response", "")`). -/
structure GenResult where
  success : Bool
  response : String
deriving DecidableEq

/-- The configuration fields of `config` that `_debate_ask` reads for the
round protocol. -/
structure DebateConfig where
  debate_rounds : Nat
  consensus_threshold : ℚ
  enable_early_stop : Bool
  ai_consensus_analysis : Bool
  consensus_check_start_round : Nat

/-- The oracle inputs of one `_debate_ask` run. -/
structure DebateOracles where
  open1 : GenResult
  open2 : GenResult
  reb1 : Nat → GenResult
  reb2 : Nat → GenResult
  coord : Nat → CoordOutcome

/-- The loop state of `_debate_ask`: the two result dicts, the transcript
`debate_round`, the `consensus_reached` flag, and an error flag modelling
an exception propagating out of the loop. -/
structure DebateState where
  res1 : GenResult
  res2 : GenResult
  transcript : List DebateEntry
  consensusReached : Bool
  errored : Bool
deriving DecidableEq

/-- `InteractiveInterface._handle_consensus_feedback`
(`scheduler.py:5168-5192`): end the debate iff the score reaches the
threshold, otherwise keep the current flag. -/
def handle_consensus_feedback (consensus_score consensus_threshold : ℚ)
    (current_consensus_reached : Bool) : Bool :=
  if consensus_threshold ≤ consensus_score then true else current_consensus_reached

/-- Round 1 of `_debate_ask` (`scheduler.py:2888-2944`): both sides are
queried; a failed result dict is replaced by a placeholder non-response
(`scheduler.py:2932-2936`), and both contents are appended to the
transcript as opening turns. -/
def openingState (o : DebateOracles) (name1 name2 : String) : DebateState :=
  let result1 := if o.open1.success then o.open1 else ⟨false, "（模型1无响应）"⟩
  let result2 := if o.open2.success then o.open2 else ⟨false, "（模型2无响应）"⟩
  { res1 := result1
    res2 := result2
    transcript := [⟨1, name1, result1.response, "opening"⟩,
                   ⟨1, name2, result2.response, "opening"⟩]
    consensusReached := false
    errored := false }

/-- The rebuttal half of one loop iteration (`scheduler.py:3006-3151`):
side 1 rebuts only if both previous results succeeded, then side 2 rebuts
only if both (now updated) results succeeded; a rebuttal is appended only
when its own call succeeds. -/
def rebuttalPhase (o : DebateOracles) (name1 name2 : String) (round_num : Nat)
    (st : DebateState) : DebateState :=
  if st.res1.success && st.res2.success then
    let result1 := o.reb1 round_num
    let st1 : DebateState :=
      { st with
        res1 := result1
        transcript := st.transcript ++
          (if result1.success then [⟨round_num, name1, result1.response, "rebuttal"⟩] else []) }
    if st1.res1.success && st1.res2.success then
      let result2 := o.reb2 round_num
      { st1 with
        res2 := result2
        transcript := st1.transcript ++
          (if result2.success then [⟨round_num, name2, result2.response, "rebuttal"⟩] else []) }
    else st1
  else st

/-- One iteration of the `for round_num in range(2, max_rounds + 1)` loop
(`scheduler.py:2957-3151`).  A set `consensusReached` models the `break`;
a set `errored` freezes the state (the exception has already escaped). -/
def debateStep (cfg : DebateConfig) (o : DebateOracles) (name1 name2 : String)
    (st : DebateState) (round_num : Nat) : DebateState :=
  if st.errored || st.consensusReached then st
  else if cfg.enable_early_stop && cfg.ai_consensus_analysis &&
          decide (cfg.consensus_check_start_round ≤ round_num) then
    match analyze_debate_consensus (o.coord round_num) st.transcript with
    | none => { st with errored := true }
    | some (consensus_score, _, _) =>
      if handle_consensus_feedback consensus_score cfg.consensus_threshold st.consensusReached then
        { st with consensusReached := true }
      else rebuttalPhase o name1 name2 round_num st
  else rebuttalPhase o name1 name2 round_num st

/-- The rounds `range(2, max_rounds + 1)` with
`max_rounds = min(config.debate_rounds, 6)` (`scheduler.py:2953-2957`). -/
def debateRounds (cfg : DebateConfig) : List Nat :=
  List.range' 2 (min cfg.debate_rounds 6 - 1)

/-- The observable outcome of `_debate_ask`: the returned transcript and
whether termination was by consensus (`consensus_reached`, which selects
the consensus summary over plain coordination, `scheduler.py:3159-3166`)
rather than by the round limit.  `none` models an exception escaping the
whole method. -/
def debate_ask (cfg : DebateConfig) (o : DebateOracles) (name1 name2 : String) :
    Option (List DebateEntry × Bool) :=
  let final := (debateRounds cfg).foldl (debateStep cfg o name1 name2) (openingState o name1 name2)
  if final.errored then none else some (final.transcript, final.consensusReached)

/-! ### The competition variant (`AICouncilScheduler.competition_debate`,
`scheduler.py:3744-3964`)

Fixed sides, no consensus checks, no early exit: two opening turns, then
for every round `2..rounds` one pro rebuttal and one con rebuttal, all
appended unconditionally with the response text of the provider result. -/

/-- One competition transcript entry: the debate dict plus its `side`. -/
structure CompEntry where
  round : Nat
  speaker : String
  content : String
  type : String
  side : String
deriving DecidableEq

/-- Forget the `side` field. -/
def CompEntry.toDebateEntry (e : CompEntry) : DebateEntry :=
  ⟨e.round, e.speaker, e.content, e.type⟩

/-- The transcript built by `competition_debate` for a run of `rounds`
rounds with the given opening and per-round rebuttal oracle results. -/
def competition_transcript (rounds : Nat) (open1 open2 : GenResult)
    (reb1 reb2 : Nat → GenResult) (name1 name2 : String) : List CompEntry :=
  let openings : List CompEntry :=
    [⟨1, name1, open1.response, "opening", "pro"⟩,
     ⟨1, name2, open2.response, "opening", "con"⟩]
  (List.range' 2 (rounds - 1)).foldl
    (fun t round_num =>
      t ++ [⟨round_num, name1, (reb1 round_num).response, "rebuttal", "pro"⟩,
            ⟨round_num, name2, (reb2 round_num).response, "rebuttal", "con"⟩])
    openings

/-! ### Transcript invariants (claim C9) -/

/-- Round numbers of successive turns are non-decreasing. -/
def RoundsMono (l : List DebateEntry) : Prop :=
  l.Chain' (fun a b => a.round ≤ b.round)

/-- No two distinct turns share both round and speaker: each participant
contributes at most one turn per round. -/
def OnePerRound (l : List DebateEntry) : Prop :=
  l.Pairwise (fun a b => a.round ≠ b.round ∨ a.speaker ≠ b.speaker)

/-- Whether any qualitative phrase of `_extract_consensus_from_text`
matches the text. -/
def hasQualPhrase (text : String) : Bool :=
  strContains text "高度共识" || strContains text "高度一致" || strContains text "完全同意" ||
  strContains text "基本共识" || strContains text "基本一致" || strContains text "大体同意" ||
  strContains text "部分共识" || strContains text "部分一致" || strContains text "部分同意" ||
  strContains text "分歧较大" || strContains text "存在分歧" || strContains text "不同意" ||
  strContains text "完全分歧" || strContains text "完全不同"

/-- The anti-hallucination instruction block for each language. -/
def antiHallucinationBlock : Lang → String
  | .zh => ANTI_HALLUCINATION_PROMPT_ZH
  | .en => ANTI_HALLUCINATION_PROMPT_EN

end Macp


namespace Macp

/-- C1: the claim says every consensus-detection entry point clamps an
out-of-range percentage such as 150 to 1.0 and returns a score in `[0,1]`.
`_parse_consensus_analysis` does clamp (second conjunct), but
`calculate_ai_consensus` divides the decoded `consensus_percentage` by 100
without any clamp (`scheduler.py:956-970`) and returns 1.5, outside
`[0,1]` (first and third conjuncts). -/
theorem calculate_ai_consensus_returns_150_unclamped :
    calculate_ai_consensus
        (.reply true "\x7b\"consensus_percentage\": 150, \"analysis\": \"x\"\x7d") [] =
      some (3/2, "x",
        [("key_agreements", .arr []), ("key_disagreements", .arr []),
         ("recommendation", .str "")]) ∧
    parse_consensus_analysis "\x7b\"consensus_percentage\": 150\x7d" =
      some (1, "分析完成", [("consensus_percentage", .num 150)]) ∧
    ¬((3 : ℚ)/2 ≤ 1) := by
  refine ⟨by with_unfolding_all rfl, by with_unfolding_all rfl, by norm_num⟩

/-- C2 counterexample: on a JSON-decode failure the claim's order would
apply the `NN%` tier first and yield the clamped 40% → 0.4, but the code
consults the qualitative phrases first: the phrase `部分共识` wins and the
result is 0.6. -/
theorem parse_decode_failure_phrase_beats_percent :
    parse_consensus_analysis "\x7bx\x7d 部分共识 40%" =
      some (3/5, "\x7bx\x7d 部分共识 40%", []) ∧
    (3/5 : ℚ) ≠ (max 0 (min 100 40)) / 100 := by
  refine ⟨by with_unfolding_all rfl, by norm_num⟩

/-- C3: the detector can both return a score outside `[0,1]` (a decode
failure whose text carries `150%` yields 1.5 — the text-extraction
percentage is not clamped, `scheduler.py:1080-1083`) and raise an uncaught
`TypeError` (a JSON `null` percentage reaches `max(0, min(100, None))`,
and no `except` clause in the call chain lists `TypeError`), contradicting
"never raises, and the score is always in `[0,1]`". -/
theorem analyze_debate_consensus_out_of_range_and_raises :
    analyze_debate_consensus (.reply true "\x7boops\x7d 150%") [] =
      some (3/2, "\x7boops\x7d 150%", []) ∧
    ¬((3 : ℚ)/2 ≤ 1) ∧
    analyze_debate_consensus (.reply true "\x7b\"consensus_percentage\": null\x7d") [] = none := by
  refine ⟨by with_unfolding_all rfl, by norm_num, by with_unfolding_all rfl⟩

end Macp

namespace Macp

/-- C2 (amended): the fallback chain of `_parse_consensus_analysis` is:
(a) brace-extract and JSON-decode with the percentage clamped to
`[0,100]`; (b) when no brace pair exists at all, an `NN%` match is used
clamped, else the 0.5 default; (c) on a JSON-decode failure the fixed
qualitative phrases are matched first, then an `NN%` match is used
*unclamped*, then the 0.5 default — raw text as rationale throughout. -/
theorem parse_fallback_order (text : String) :
    (∀ p : ℚ, braceSlice text = none → percentSearch text = some p →
      parse_consensus_analysis text = some ((max 0 (min 100 p)) / 100, text, [])) ∧
    (braceSlice text = none → percentSearch text = none →
      parse_consensus_analysis text = some (1/2, text, [])) ∧
    (∀ js, braceSlice text = some js → json_loads js = none →
      parse_consensus_analysis text = some (extract_consensus_from_text text)) ∧
    (∀ p : ℚ, hasQualPhrase text = false → percentSearch text = some p →
      extract_consensus_from_text text = (p / 100, text, [])) ∧
    (hasQualPhrase text = false → percentSearch text = none →
      extract_consensus_from_text text = (1/2, text, [])) := by
  refine ⟨?_, ?_, ?_, ?_, ?_⟩
  · intro p h1 h2
    simp only [parse_consensus_analysis, h1, h2]
  · intro h1 h2
    simp only [parse_consensus_analysis, h1, h2]
  · intro js h1 h2
    simp only [parse_consensus_analysis, h1, h2]
  · intro p h1 h2
    simp only [hasQualPhrase, Bool.or_eq_false_iff] at h1
    obtain ⟨⟨⟨⟨⟨⟨⟨⟨⟨⟨⟨⟨⟨q1, q2⟩, q3⟩, q4⟩, q5⟩, q6⟩, q7⟩, q8⟩, q9⟩, q10⟩, q11⟩, q12⟩, q13⟩, q14⟩ := h1
    simp only [extract_consensus_from_text, q1, q2, q3, q4, q5, q6, q7, q8, q9, q10, q11,
      q12, q13, q14, h2, Bool.false_eq_true, or_self, if_false]
  · intro h1 h2
    simp only [hasQualPhrase, Bool.or_eq_false_iff] at h1
    obtain ⟨⟨⟨⟨⟨⟨⟨⟨⟨⟨⟨⟨⟨q1, q2⟩, q3⟩, q4⟩, q5⟩, q6⟩, q7⟩, q8⟩, q9⟩, q10⟩, q11⟩, q12⟩, q13⟩, q14⟩ := h1
    simp only [extract_consensus_from_text, q1, q2, q3, q4, q5, q6, q7, q8, q9, q10, q11,
      q12, q13, q14, h2, Bool.false_eq_true, or_self, if_false]

/-- Witness for `parse_fallback_order` at a concrete text without a brace
pair: the 250% match is clamped to 100 and scored 1.0. -/
theorem parse_fallback_order_witness :
    parse_consensus_analysis "no braces 250%" =
      some ((max 0 (min 100 (250 : ℚ))) / 100, "no braces 250%", []) :=
  (parse_fallback_order "no braces 250%").1 250
    (by with_unfolding_all rfl) (by with_unfolding_all rfl)

/-- C4: with `round_limit = 6` and the unreachable threshold 1.2 > 1 the
claim expects termination by round limit only, but a coordinator reply
whose decode fails and whose text carries `150%` produces the unclamped
score 1.5 ≥ 1.2, and the session terminates by the consensus check
(`consensus_reached = true`). -/
theorem debate_consensus_exit_despite_threshold_above_one :
    (1 : ℚ) < 6/5 ∧
    (debate_ask ⟨6, 6/5, true, true, 2⟩
        ⟨⟨true, "A"⟩, ⟨true, "B"⟩, (fun _ => ⟨true, "ra"⟩), (fun _ => ⟨true, "rb"⟩),
         (fun _ => .reply true "\x7boops\x7d 150%")⟩
        "m1-正方" "m2-反方").map (fun r => r.2) = some true := by
  refine ⟨by norm_num, by with_unfolding_all rfl⟩

/-- C5: with both opening calls failed, the placeholder turns are appended
and the debate proceeds without rebuttals (second conjunct) — but the
session can still die with an uncaught `TypeError` when a round-2
consensus check decodes a `null` percentage (first conjunct), so "never an
unhandled exception" fails on the code. -/
theorem debate_both_openings_fail :
    debate_ask ⟨6, 7/10, true, true, 2⟩
        ⟨⟨false, ""⟩, ⟨false, ""⟩, (fun _ => ⟨true, "ra"⟩), (fun _ => ⟨true, "rb"⟩),
         (fun _ => .reply true "\x7b\"consensus_percentage\": null\x7d")⟩
        "m1-正方" "m2-反方" = none ∧
    debate_ask ⟨6, 7/10, false, false, 2⟩
        ⟨⟨false, ""⟩, ⟨false, ""⟩, (fun _ => ⟨true, "ra"⟩), (fun _ => ⟨true, "rb"⟩),
         (fun _ => .reply true "ok")⟩
        "m1-正方" "m2-反方" =
      some ([⟨1, "m1-正方", "（模型1无响应）", "opening"⟩,
             ⟨1, "m2-反方", "（模型2无响应）", "opening"⟩], false) := by
  refine ⟨by with_unfolding_all rfl, by with_unfolding_all rfl⟩

end Macp

namespace Macp

/-- `wordSet` of the empty string is empty. -/
lemma wordSet_empty_str : wordSet "" = ∅ := rfl

/-- C6: the heuristic fallback tier scores `agree/(agree+disagree)`
clamped to `[0.2, 0.8]` when some signal exists, is exactly 0.5 with no
signal, and in every case stays inside `[0.2, 0.8]`. -/
theorem fallback_consensus_score_bounds (debate_history : List DebateEntry) :
    (1/5 ≤ (fallback_consensus_analysis debate_history).1 ∧
      (fallback_consensus_analysis debate_history).1 ≤ 4/5) ∧
    (keywordHits consensus_words (allContentLower debate_history) +
        keywordHits disagreement_words (allContentLower debate_history) = 0 →
      (fallback_consensus_analysis debate_history).1 = 1/2) ∧
    (keywordHits consensus_words (allContentLower debate_history) +
        keywordHits disagreement_words (allContentLower debate_history) ≠ 0 →
      (fallback_consensus_analysis debate_history).1 =
        max (1/5) (min (4/5)
          ((keywordHits consensus_words (allContentLower debate_history) : ℚ) /
            ((keywordHits consensus_words (allContentLower debate_history) +
              keywordHits disagreement_words (allContentLower debate_history) : Nat) : ℚ)))) := by
  refine ⟨?_, ?_, ?_⟩
  · by_cases h : keywordHits consensus_words (allContentLower debate_history) +
        keywordHits disagreement_words (allContentLower debate_history) = 0
    · simp only [fallback_consensus_analysis, h, if_true, reduceIte]
      norm_num
    · simp only [fallback_consensus_analysis, h, if_false, reduceIte]
      constructor
      · exact le_max_left _ _
      · exact max_le (by norm_num) (min_le_left _ _)
  · intro h
    simp only [fallback_consensus_analysis, h, reduceIte]
  · intro h
    simp only [fallback_consensus_analysis, h, reduceIte]

/-- Witness for `fallback_consensus_score_bounds`: the empty transcript
has no signals, so the score is exactly 0.5. -/
theorem fallback_consensus_score_bounds_witness :
    (fallback_consensus_analysis []).1 = 1/2 :=
  (fallback_consensus_score_bounds []).2.1 (by with_unfolding_all rfl)

/-- C7 counterexample: the claim says every pair of identical strings
scores 1.0, but two copies of `"a"` contain no word of length ≥ 3, so the
keyword sets are empty and the tier returns 0.0 ≠ 1.0. -/
theorem calculate_consensus_identical_short_strings_zero :
    calculate_consensus "a" "a" = 0 ∧ (0 : ℚ) ≠ 1 :=
  ⟨by with_unfolding_all rfl, by norm_num⟩

/-- C7 (amended): the keyword-overlap tier returns 1.0 on two identical
strings whose keyword set is nonempty, 0.0 whenever the two keyword sets
are disjoint, and the Jaccard ratio `|∩|/|∪|` whenever both keyword sets
are nonempty. -/
theorem calculate_consensus_overlap_properties (a b : String) :
    (wordSet a ≠ ∅ → calculate_consensus a a = 1) ∧
    (wordSet a ∩ wordSet b = ∅ → calculate_consensus a b = 0) ∧
    (wordSet a ≠ ∅ → wordSet b ≠ ∅ →
      calculate_consensus a b =
        ((wordSet a ∩ wordSet b).card : ℚ) / ((wordSet a ∪ wordSet b).card : ℚ)) := by
  refine ⟨?_, ?_, ?_⟩
  · intro h
    have ha : ¬(a = "") := fun e => h (by rw [e]; exact wordSet_empty_str)
    have hne : (wordSet a).Nonempty := Finset.nonempty_iff_ne_empty.2 h
    have hpos : 0 < (wordSet a).card := Finset.card_pos.2 hne
    simp only [calculate_consensus, ha, or_self, if_false, h,
      Finset.inter_self, Finset.union_self, hpos, if_true, reduceIte]
    exact div_self (by exact_mod_cast hpos.ne')
  · intro h
    simp only [calculate_consensus]
    split_ifs <;> simp [h]
  · intro h1 h2
    have ha : ¬(a = "") := fun e => h1 (by rw [e]; exact wordSet_empty_str)
    have hb : ¬(b = "") := fun e => h2 (by rw [e]; exact wordSet_empty_str)
    have hne : (wordSet a ∪ wordSet b).Nonempty :=
      (Finset.nonempty_iff_ne_empty.2 h1).mono Finset.subset_union_left
    have hpos : 0 < (wordSet a ∪ wordSet b).card := Finset.card_pos.2 hne
    simp only [calculate_consensus, ha, hb, or_self, if_false, h1, h2, hpos, if_true, reduceIte]

/-- Witness for `calculate_consensus_overlap_properties`: a concrete
identical pair with a nonempty keyword set scores 1.0. -/
theorem calculate_consensus_overlap_properties_witness :
    calculate_consensus "hello world" "hello world" = 1 :=
  (calculate_consensus_overlap_properties "hello world" "hello world").1
    (by with_unfolding_all decide)

/-- C10: the keyword-overlap tier is symmetric in its two arguments: all
guards are order-insensitive and intersection/union cardinalities commute. -/
theorem calculate_consensus_comm (a b : String) :
    calculate_consensus a b = calculate_consensus b a := by
  unfold calculate_consensus
  by_cases ha : a = "" <;> by_cases hb : b = "" <;>
    by_cases hA : wordSet a = ∅ <;> by_cases hB : wordSet b = ∅ <;>
      simp [ha, hb, hA, hB, Finset.inter_comm, Finset.union_comm]

end Macp

namespace Macp

/-- C8 counterexample: the claim says the cat-feathers topic classifies as
`factual`, but every keyword of both lists is Chinese, so the English
topic scores 0 factual and 0 philosophical hits and lands in the `mixed`
branch. -/
theorem cat_feathers_topic_not_factual :
    (analyze_question_type "what color are a cat\x27s feathers").qtype = "mixed" ∧
    ("mixed" : String) ≠ "factual" :=
  ⟨by with_unfolding_all rfl, by decide⟩

/-- C8 (amended): the cat-feathers topic classifies as `mixed` with
`accuracy_required = true` (both keyword scores are 0, and ties keep
accuracy), and — since the instruction block is selected by
`accuracy_required` alone — both sides' round-1 opening prompts contain
the anti-hallucination block verbatim, in either interface language and
for any role prompt and role names. -/
theorem cat_feathers_mixed_accuracy_prompt :
    (analyze_question_type "what color are a cat\x27s feathers").qtype = "mixed" ∧
    (analyze_question_type "what color are a cat\x27s feathers").accuracy_required = true ∧
    (analyze_question_type "what color are a cat\x27s feathers").confidence = 1/2 ∧
    ∀ (lang : Lang) (role_prompt role1 role2 : String),
      ContainsBlock (antiHallucinationBlock lang)
        (openingPrompt1 lang role_prompt "what color are a cat\x27s feathers" role1 role2
          (analyze_question_type "what color are a cat\x27s feathers").accuracy_required) ∧
      ContainsBlock (antiHallucinationBlock lang)
        (openingPrompt2 lang role_prompt "what color are a cat\x27s feathers" role1 role2
          (analyze_question_type "what color are a cat\x27s feathers").accuracy_required) := by
  have hacc : (analyze_question_type "what color are a cat\x27s feathers").accuracy_required
      = true := by with_unfolding_all rfl
  refine ⟨by with_unfolding_all rfl, hacc, by with_unfolding_all rfl, ?_⟩
  intro lang role_prompt role1 role2
  rw [hacc]
  cases lang with
  | zh =>
    constructor
    · exact ⟨role_prompt ++ "\n",
        "\n\n【辩论主题】: " ++ "what color are a cat\x27s feathers" ++
          "\n\n【你的立场】: " ++ role1 ++ "（正方）\n【对手角色】: " ++ role2 ++
          "（反方）\n\n请简洁有力地阐述你的核心观点（重点突出3-5个关键论点）：\n",
        by simp [openingPrompt1, modeInstruction, antiHallucinationBlock, String.append_assoc]⟩
    · exact ⟨role_prompt ++ "\n",
        "\n\n【辩论主题】: " ++ "what color are a cat\x27s feathers" ++
          "\n\n【你的立场】: " ++ role2 ++ "（反方）\n【对手角色】: " ++ role1 ++
          "（正方）\n\n请简洁有力地阐述你的核心观点（重点突出3-5个关键论点）：\n",
        by simp [openingPrompt2, modeInstruction, antiHallucinationBlock, String.append_assoc]⟩
  | en =>
    constructor
    · exact ⟨role_prompt ++ "\n" ++ "\n**IMPORTANT: You MUST respond entirely in English.**\n"
          ++ "\n",
        "\n\n【Debate Topic】: " ++ "what color are a cat\x27s feathers" ++
          "\n\n【Your Position】: " ++ role1 ++ " (Pro side)\n【Opponent Role】: " ++ role2 ++
          " (Con side)\n\nPlease clearly and concisely present your core arguments (highlight 3-5 key points):\n",
        by simp [openingPrompt1, modeInstruction, antiHallucinationBlock, String.append_assoc]⟩
    · exact ⟨role_prompt ++ "\n" ++ "\n**IMPORTANT: You MUST respond entirely in English.**\n"
          ++ "\n",
        "\n\n【Debate Topic】: " ++ "what color are a cat\x27s feathers" ++
          "\n\n【Your Position】: " ++ role2 ++ " (Con side)\n【Opponent Role】: " ++ role1 ++
          " (Pro side)\n\nPlease clearly and concisely present your core arguments (highlight 3-5 key points):\n",
        by simp [openingPrompt2, modeInstruction, antiHallucinationBlock, String.append_assoc]⟩

end Macp

namespace Macp

/-- Combined transcript invariant, indexed by the round bound: rounds are
非 non-decreasing, no speaker repeats within a round, and every recorded
round is below the bound. -/
def TranscriptInv (t : List DebateEntry) (r : Nat) : Prop :=
  RoundsMono t ∧ OnePerRound t ∧ ∀ e ∈ t, e.round < r

lemma transcriptInv_succ {t : List DebateEntry} {r : Nat} (h : TranscriptInv t r) :
    TranscriptInv t (r + 1) :=
  ⟨h.1, h.2.1, fun e he => Nat.lt_succ_of_lt (h.2.2 e he)⟩

/-- Appending a block of turns that all belong to the fresh round `r`,
with pairwise-distinct speakers, preserves the invariant and bumps the
bound. -/
lemma transcript_extend {t xs : List DebateEntry} {r : Nat}
    (h : TranscriptInv t r)
    (hxr : ∀ e ∈ xs, e.round = r)
    (hxs : xs.Pairwise (fun a b => a.speaker ≠ b.speaker)) :
    TranscriptInv (t ++ xs) (r + 1) := by
  obtain ⟨hm, hp, hb⟩ := h
  refine ⟨?_, ?_, ?_⟩
  · rw [RoundsMono, List.chain'_append]
    refine ⟨hm, ?_, ?_⟩
    · exact List.Pairwise.chain'
        (List.pairwise_of_forall_mem_list fun a ha b hb => by
          rw [hxr a ha, hxr b hb])
    · intro x hx y hy
      obtain ⟨hnil, rfl⟩ := List.mem_getLast?_eq_getLast hx
      have hxt : t.getLast hnil ∈ t := List.getLast_mem hnil
      have hyx : y ∈ xs := List.mem_of_mem_head? hy
      rw [hxr y hyx]
      exact Nat.le_of_lt (hb _ hxt)
  · rw [OnePerRound, List.pairwise_append]
    refine ⟨hp, hxs.imp Or.inr, ?_⟩
    intro a ha b hb'
    exact Or.inl (by rw [hxr b hb']; exact Nat.ne_of_lt (hb a ha))
  · intro e he
    rcases List.mem_append.1 he with h' | h'
    · exact Nat.lt_succ_of_lt (hb e h')
    · rw [hxr e h']; exact Nat.lt_succ_self r


/-- Membership in the two-element rebuttal block is one of the two
entries. -/
lemma mem_pair_elim {e a b : DebateEntry} (h : e ∈ [a, b]) : e = a ∨ e = b := by
  simpa using h

/-- The rebuttal half of a loop round preserves the invariant. -/
lemma rebuttalPhase_inv (o : DebateOracles) {n1 n2 : String} (hne : n1 ≠ n2)
    (r : Nat) (st : DebateState) (h : TranscriptInv st.transcript r) :
    TranscriptInv (rebuttalPhase o n1 n2 r st).transcript (r + 1) := by
  by_cases hg1 : (st.res1.success && st.res2.success) = true
  · have h1 : st.res1.success = true := by
      revert hg1; cases st.res1.success <;> cases st.res2.success <;> simp
    have h2 : st.res2.success = true := by
      revert hg1; cases st.res1.success <;> cases st.res2.success <;> simp
    by_cases hr1 : (o.reb1 r).success = true
    · by_cases hr2 : (o.reb2 r).success = true
      · simp [rebuttalPhase, hg1, h1, h2, hr1, hr2, List.append_assoc]
        refine transcript_extend h ?_ ?_
        · intro e he
          rcases mem_pair_elim he with rfl | rfl <;> rfl
        · exact List.pairwise_pair.2 hne
      · simp [rebuttalPhase, hg1, h1, h2, hr1, hr2]
        refine transcript_extend h ?_ ?_
        · intro e he
          rcases List.mem_singleton.1 he with rfl
          rfl
        · exact List.pairwise_singleton _ _
    · simp [rebuttalPhase, hg1, h1, h2, hr1]
      exact transcriptInv_succ h
  · simp [rebuttalPhase, hg1]
    exact transcriptInv_succ h



/-- One full loop iteration preserves the invariant: the consensus-check
branches leave the transcript untouched and the rebuttal branch extends it
within the current round. -/
lemma debateStep_inv (cfg : DebateConfig) (o : DebateOracles) {n1 n2 : String}
    (hne : n1 ≠ n2) (r : Nat) (st : DebateState) (h : TranscriptInv st.transcript r) :
    TranscriptInv (debateStep cfg o n1 n2 st r).transcript (r + 1) := by
  unfold debateStep
  split
  · exact transcriptInv_succ h
  · split
    · split
      · exact transcriptInv_succ h
      · split
        · exact transcriptInv_succ h
        · exact rebuttalPhase_inv o hne r st h
    · exact rebuttalPhase_inv o hne r st h

/-- Folding the loop over consecutive round numbers preserves the
invariant and advances the bound. -/
lemma debateFold_inv (cfg : DebateConfig) (o : DebateOracles) {n1 n2 : String}
    (hne : n1 ≠ n2) :
    ∀ (k r : Nat) (st : DebateState), TranscriptInv st.transcript r →
      TranscriptInv (((List.range' r k).foldl (debateStep cfg o n1 n2) st).transcript) (r + k) := by
  intro k
  induction k with
  | zero => intro r st h; simpa using h
  | succ n ih =>
    intro r st h
    have hr : List.range' r (n + 1) = r :: List.range' (r + 1) n := rfl
    rw [hr, List.foldl_cons, show r + (n + 1) = (r + 1) + n by omega]
    exact ih (r + 1) _ (debateStep_inv cfg o hne r st h)

/-- Folding the competition rounds preserves the invariant on the
side-forgetting projection of the transcript. -/
lemma compFold_inv (reb1 reb2 : Nat → GenResult) {n1 n2 : String} (hne : n1 ≠ n2) :
    ∀ (k r : Nat) (t : List CompEntry),
      TranscriptInv (t.map CompEntry.toDebateEntry) r →
      TranscriptInv
        ((((List.range' r k).foldl
            (fun t round_num =>
              t ++ [⟨round_num, n1, (reb1 round_num).response, "rebuttal", "pro"⟩,
                    ⟨round_num, n2, (reb2 round_num).response, "rebuttal", "con"⟩])
            t).map CompEntry.toDebateEntry)) (r + k) := by
  intro k
  induction k with
  | zero => intro r t h; simpa using h
  | succ n ih =>
    intro r t h
    have hr : List.range' r (n + 1) = r :: List.range' (r + 1) n := rfl
    rw [hr, List.foldl_cons, show r + (n + 1) = (r + 1) + n by omega]
    refine ih (r + 1) _ ?_
    rw [List.map_append]
    refine transcript_extend h ?_ ?_
    · intro e he
      rcases mem_pair_elim he with rfl | rfl <;> rfl
    · exact List.pairwise_pair.2 hne

/-- C9: in every transcript a debate run returns, and in every
competition transcript, round numbers of successive turns are
non-decreasing and each participant (side) speaks at most once per round;
the two sides carry distinct display names. -/
theorem transcript_round_invariants
    (cfg : DebateConfig) (o : DebateOracles) (n1 n2 : String) (hne : n1 ≠ n2) :
    (∀ t c, debate_ask cfg o n1 n2 = some (t, c) → RoundsMono t ∧ OnePerRound t) ∧
    (∀ (rounds : Nat) (open1 open2 : GenResult) (reb1 reb2 : Nat → GenResult),
      RoundsMono ((competition_transcript rounds open1 open2 reb1 reb2 n1 n2).map
        CompEntry.toDebateEntry) ∧
      OnePerRound ((competition_transcript rounds open1 open2 reb1 reb2 n1 n2).map
        CompEntry.toDebateEntry)) := by
  constructor
  · intro t c hrun
    have hinit : TranscriptInv (openingState o n1 n2).transcript 2 := by
      refine ⟨?_, ?_, ?_⟩
      · exact List.chain'_pair.2 (le_refl 1)
      · exact List.Pairwise.cons
          (fun b hb => by rcases List.mem_singleton.1 hb with rfl; exact Or.inr hne)
          (List.pairwise_singleton _ _)
      · intro e he
        rcases mem_pair_elim he with rfl | rfl <;> exact Nat.one_lt_two
    have hf := debateFold_inv cfg o hne (min cfg.debate_rounds 6 - 1) 2 _ hinit
    unfold debate_ask debateRounds at hrun
    dsimp only at hrun
    split at hrun
    · exact absurd hrun (by simp)
    · have hpair := Option.some_inj.mp hrun
      have ht := congrArg Prod.fst hpair
      dsimp only at ht
      rw [← ht]
      exact ⟨hf.1, hf.2.1⟩
  · intro rounds open1 open2 reb1 reb2
    have hinit : TranscriptInv
        (([⟨1, n1, open1.response, "opening", "pro"⟩,
           ⟨1, n2, open2.response, "opening", "con"⟩] : List CompEntry).map
          CompEntry.toDebateEntry) 2 := by
      refine ⟨?_, ?_, ?_⟩
      · exact List.chain'_pair.2 (le_refl 1)
      · exact List.Pairwise.cons
          (fun b hb => by rcases List.mem_singleton.1 hb with rfl; exact Or.inr hne)
          (List.pairwise_singleton _ _)
      · intro e he
        rcases mem_pair_elim he with rfl | rfl <;> exact Nat.one_lt_two
    have hf := compFold_inv reb1 reb2 hne (rounds - 1) 2 _ hinit
    exact ⟨hf.1, hf.2.1⟩



/-- Witness for `transcript_round_invariants`: a concrete two-round run
with distinct names yields a transcript satisfying both invariants. -/
theorem transcript_round_invariants_witness :
    RoundsMono [⟨1, "a", "x", "opening"⟩, ⟨1, "b", "y", "opening"⟩,
                ⟨2, "a", "p", "rebuttal"⟩, ⟨2, "b", "q", "rebuttal"⟩] ∧
    OnePerRound [⟨1, "a", "x", "opening"⟩, ⟨1, "b", "y", "opening"⟩,
                 ⟨2, "a", "p", "rebuttal"⟩, ⟨2, "b", "q", "rebuttal"⟩] :=
  (transcript_round_invariants ⟨2, 1, false, false, 2⟩
      ⟨⟨true, "x"⟩, ⟨true, "y"⟩, fun _ => ⟨true, "p"⟩, fun _ => ⟨true, "q"⟩,
       fun _ => .reply true "z"⟩
      "a" "b" (by decide)).1
    [⟨1, "a", "x", "opening"⟩, ⟨1, "b", "y", "opening"⟩,
     ⟨2, "a", "p", "rebuttal"⟩, ⟨2, "b", "q", "rebuttal"⟩] false
    (by with_unfolding_all rfl)


end Macp
